import Mathlib

/-!
Shallow embedding of the detector-response / trigger / GPS-timestamp /
coincidence core of the `sapphire` air-shower simulation
(`sapphire/simulations/base.py`, `sapphire/simulations/detector.py`,
`sapphire/simulations/groundparticles.py`).

Times, particle counts and pulse heights are modelled as exact rationals;
the stochastic mips model (square roots, cosines) is modelled over the
reals.  Randomness (uniform draws, offsets, jitters) is passed in
explicitly as streams, mirroring the process-wide `numpy.random`
generator of the source.
-/

namespace Sapphire

/-- Per-detector observable bundle produced by
`GroundParticlesSimulation.simulate_detector_response`: `n` is the
(rounded) mips count, `t` the quantized arrival time (`-999` when no
signal). -/
structure DetectorObservables where
  n : ℚ
  t : ℚ
deriving DecidableEq

/-- Number of detectors whose signal is above the low threshold
(`observables['n'] > 0.3` in `GroundParticlesSimulation.simulate_trigger`). -/
def countAboveLow (obs : List DetectorObservables) : ℕ :=
  (obs.filter (fun o => 3/10 < o.n)).length

/-- Number of detectors whose signal is above the high threshold
(`observables['n'] > 0.5`). -/
def countAboveHigh (obs : List DetectorObservables) : ℕ :=
  (obs.filter (fun o => 1/2 < o.n)).length

/-- `GroundParticlesSimulation.simulate_trigger`: a 4-detector station
triggers on at least 2 high or at least 3 low signals; a 2-detector
station on at least 2 low signals; anything else does not trigger. -/
def simulate_trigger (obs : List DetectorObservables) : Bool :=
  if obs.length = 4 ∧ (2 ≤ countAboveHigh obs ∨ 3 ≤ countAboveLow obs) then
    true
  else if obs.length = 2 ∧ 2 ≤ countAboveLow obs then
    true
  else
    false

/-- Per-detector observables as read by the GEANT4 variant trigger
(`GroundParticlesGEANT4Simulation.simulate_trigger` looks at
`observables['pulseheights']` in mV). -/
structure GeantDetectorObservables where
  pulseheights : ℚ
deriving DecidableEq

/-- Detectors above the GEANT4 low threshold (`pulseheights > 30`). -/
def countAboveLowGeant (obs : List GeantDetectorObservables) : ℕ :=
  (obs.filter (fun o => 30 < o.pulseheights)).length

/-- Detectors above the GEANT4 high threshold (`pulseheights > 70`). -/
def countAboveHighGeant (obs : List GeantDetectorObservables) : ℕ :=
  (obs.filter (fun o => 70 < o.pulseheights)).length

/-- `GroundParticlesGEANT4Simulation.simulate_trigger` (thresholds 30 mV
and 70 mV, `treshold_low = 3`). -/
def simulate_trigger_geant (obs : List GeantDetectorObservables) : Bool :=
  if obs.length = 4 ∧ (2 ≤ countAboveHighGeant obs ∨ 3 ≤ countAboveLowGeant obs) then
    true
  else if obs.length = 2 ∧ 2 ≤ countAboveLowGeant obs then
    true
  else
    false

/-- Valid per-detector arrival times of a station, as collected by
`simulate_gps`: `t_i` for `i` in 1..4 whenever the corresponding particle
count `n_i` is positive (`station_observables.get('n%d' % id, -1) > 0`). -/
def arrival_times (obs : List DetectorObservables) : List ℚ :=
  ((obs.take 4).filter (fun o => 0 < o.n)).map (fun o => o.t)

/-- The station trigger time computed by `simulate_gps`:
`sorted(arrival_times)[1]` when at least two detectors have valid
signals, nothing otherwise. -/
def t_trigger (obs : List DetectorObservables) : Option ℚ :=
  if h : 1 < (arrival_times obs).length then
    some ((List.insertionSort (fun a b => a ≤ b) (arrival_times obs)).get
      ⟨1, by simpa [List.length_insertionSort] using h⟩)
  else
    none

/-- Python `int()` applied to a (rational-valued) float: truncation
toward zero. -/
def int_trunc (q : ℚ) : ℤ :=
  if 0 ≤ q then ⌊q⌋ else ⌈q⌉

/-- GPS timestamp fields added to the station observables by
`simulate_gps` when the station has at least two valid signals. -/
structure GpsFields where
  ext_timestamp : ℤ
  timestamp : ℤ
  nanoseconds : ℤ
  t_trigger : ℚ
deriving DecidableEq

/-- `GroundParticlesSimulation.simulate_gps` (textually identical in
`GroundParticlesGEANT4Simulation`): with at least two valid arrival
times, the trigger time is the second element of the sorted valid times,
the external timestamp is the shower timestamp plus
`int(trigger_time + station.gps_offset + gps_uncertainty)`, split into
whole seconds and a nanosecond remainder; with fewer than two valid
times no timestamp fields are produced. -/
def simulate_gps (obs : List DetectorObservables) (shower_ext : ℤ)
    (gps_offset unc : ℚ) : Option GpsFields :=
  (t_trigger obs).map (fun tt =>
    let ext := shower_ext + int_trunc (tt + gps_offset + unc)
    ⟨ext, ext.tdiv (10 ^ 9), ext.emod (10 ^ 9), tt⟩)

/-- Number of detectors of a station with a valid signal (`n_i > 0`),
among the first four (only `n1..n4` are inspected by `simulate_gps`). -/
def validCount (obs : List DetectorObservables) : ℕ :=
  ((obs.take 4).filter (fun o => 0 < o.n)).length

/-- Station observables of the spec's GPS example: per-detector times
`[5, 3, 9, -999]`, the last detector having particle count 0. -/
def gpsExampleA : List DetectorObservables := [⟨1, 5⟩, ⟨1, 3⟩, ⟨1, 9⟩, ⟨0, -999⟩]

/-- Two-detector station with valid arrival times `[10, 12]`. -/
def gpsExampleB : List DetectorObservables := [⟨1, 10⟩, ⟨1, 12⟩]

/-- A stored station-event row (`events_table` in
`BaseSimulation.store_station_observables`); only the columns the claims
are about are kept: `event_id`, the GPS timestamp fields, and the raw
per-detector observables the row was built from.  Timestamp columns keep
the table default `0` when `simulate_gps` produced none. -/
structure StationEvent where
  event_id : ℕ
  ext_timestamp : ℤ
  timestamp : ℤ
  nanoseconds : ℤ
  dets : List DetectorObservables
deriving DecidableEq

/-- The event row for one firing station: `event_id` is the row count at
append time, timestamp fields come from `simulate_gps` (table defaults
when the station had fewer than two valid signals). -/
def mk_station_event (obs : List DetectorObservables) (shower_ext : ℤ)
    (gps_offset unc : ℚ) (eid : ℕ) : StationEvent :=
  match simulate_gps obs shower_ext gps_offset unc with
  | some g => ⟨eid, g.ext_timestamp, g.timestamp, g.nanoseconds, obs⟩
  | none => ⟨eid, 0, 0, 0, obs⟩

/-- `BaseSimulation.store_station_observables`: append the row to the
station's events table and return the new row's index
(`events_table.nrows - 1` after the append).  The per-station tables are
modelled as a map from station id to list of rows. -/
def store_station_observables (tables : ℕ → List StationEvent) (station_id : ℕ)
    (ev : StationEvent) : (ℕ → List StationEvent) × ℕ :=
  (Function.update tables station_id (tables station_id ++ [ev]),
   (tables station_id ++ [ev]).length - 1)

/-- The station loop of `BaseSimulation.simulate_events_for_shower`:
stations are visited in order; a station whose trigger fired gets its
observables stored and contributes a `(station_id, event_index)` pair. -/
def sim_events_aux (shower_ext : ℤ) (gps_offset unc : ℕ → ℚ) :
    ℕ → List (List DetectorObservables) → (ℕ → List StationEvent) →
    (ℕ → List StationEvent) × List (ℕ × ℕ)
  | _, [], tables => (tables, [])
  | station_id, obs :: rest, tables =>
    if simulate_trigger obs then
      let ev := mk_station_event obs shower_ext (gps_offset station_id)
        (unc station_id) (tables station_id).length
      let r1 := store_station_observables tables station_id ev
      let r2 := sim_events_aux shower_ext gps_offset unc (station_id + 1) rest r1.1
      (r2.1, (station_id, r1.2) :: r2.2)
    else
      sim_events_aux shower_ext gps_offset unc (station_id + 1) rest tables

/-- `BaseSimulation.simulate_events_for_shower`: run every station of the
cluster for one shower, returning the updated tables and the list of
`(station_id, event_index)` pairs of the stations that triggered. -/
def simulate_events_for_shower (shower_ext : ℤ) (gps_offset unc : ℕ → ℚ)
    (stations : List (List DetectorObservables)) (tables : ℕ → List StationEvent) :
    (ℕ → List StationEvent) × List (ℕ × ℕ) :=
  sim_events_aux shower_ext gps_offset unc 0 stations tables

/-- Python tuple comparison on `(ext_timestamp, timestamp, nanoseconds)`
triples, as used by `sorted(timestamps)` in
`BaseSimulation.store_coincidence`: lexicographic order. -/
def lexLe (a b : ℤ × ℤ × ℤ) : Prop :=
  a.1 < b.1 ∨ (a.1 = b.1 ∧ (a.2.1 < b.2.1 ∨ (a.2.1 = b.2.1 ∧ a.2.2 ≤ b.2.2)))

instance : DecidableRel lexLe := fun a b => by
  unfold lexLe; exact inferInstance

instance : IsTotal (ℤ × ℤ × ℤ) lexLe := ⟨by intro a b; unfold lexLe; omega⟩

instance : IsTrans (ℤ × ℤ × ℤ) lexLe := ⟨by intro a b c; unfold lexLe; omega⟩

/-- The timestamp triple of a stored event, as gathered by
`store_coincidence`. -/
def tripleOf (e : StationEvent) : ℤ × ℤ × ℤ :=
  (e.ext_timestamp, e.timestamp, e.nanoseconds)

/-- A persisted coincidence row (the columns the claims are about). -/
structure Coincidence where
  id : ℕ
  N : ℕ
  flags : List Bool
  ext_timestamp : ℤ
  timestamp : ℤ
  nanoseconds : ℤ
deriving DecidableEq

/-- `BaseSimulation.store_coincidence`: the row records the shower id,
`N = len(station_events)`, a flag per station of the cluster, and the
timestamp fields of `sorted(timestamps)[0]` over the participating
events' triples — `(0, 0, 0)` when `station_events` is empty (the
`IndexError` fallback). -/
def store_coincidence (tables : ℕ → List StationEvent) (n_stations shower_id : ℕ)
    (station_events : List (ℕ × ℕ)) : Coincidence :=
  let timestamps := station_events.map
    (fun p => tripleOf ((tables p.1).getD p.2 ⟨0, 0, 0, 0, []⟩))
  let first := (List.insertionSort lexLe timestamps).headD (0, 0, 0)
  { id := shower_id
    N := station_events.length
    flags := (List.range n_stations).map (fun i => station_events.any (fun p => p.1 == i))
    ext_timestamp := first.1
    timestamp := first.2.1
    nanoseconds := first.2.2 }

/-- The "equation" part returned by `get_line_boundary_eqs`: either the
degenerate vertical form (the string `"x"` in the source) or the
slope-intercept form (`"y - a * x"`). -/
inductive LineEq where
  | vertical : LineEq
  | slope (a : ℚ) : LineEq
deriving DecidableEq

/-- `DetectorBoundarySimulation.get_line_boundary_eqs` (textually
identical in `GroundParticlesGEANT4Simulation`): given two points on one
line and a third on a parallel line, return two boundary values and the
line equation; when the first two points share their x coordinate the
vertical form is used; finally the boundaries are swapped if needed so
the lower one comes first. -/
def get_line_boundary_eqs (p0 p1 p2 : ℚ × ℚ) : ℚ × LineEq × ℚ :=
  let r :=
    if p0.1 = p1.1 then
      (p0.1, LineEq.vertical, p2.1)
    else
      let a := (p1.2 - p0.2) / (p1.1 - p0.1)
      (p0.2 - a * p0.1, LineEq.slope a, p2.2 - a * p2.1)
  if r.2.2 < r.1 then (r.2.2, r.2.1, r.1) else r

/-- A CORSIKA ground-particle row (the columns used by the particle
selection queries); positions in m, momenta in eV/c, time in ns. -/
structure Particle where
  particle_id : ℕ
  x : ℚ
  y : ℚ
  t : ℚ
  p_x : ℚ
  p_y : ℚ
  p_z : ℚ
deriving DecidableEq

/-- The row predicate of the `read_where` query in
`GroundParticlesSimulation.get_particles_in_detector`: the axis-aligned
bounding box around the projected detector position intersected with the
species condition `(particle_id >= 2) & (particle_id <= 6)`. -/
def gp_query (xlo xhi ylo yhi : ℚ) (p : Particle) : Bool :=
  decide (xlo ≤ p.x) && decide (p.x ≤ xhi) && decide (ylo ≤ p.y) &&
    decide (p.y ≤ yhi) && decide (2 ≤ p.particle_id) && decide (p.particle_id ≤ 6)

/-- `GroundParticlesSimulation.get_particles_in_detector`: filter the
ground-particle table by the query; the box bounds
(`xproj ± detector_boundary`, `yproj ± detector_boundary`) are passed in
as computed by the caller. -/
def get_particles_in_detector (groundparticles : List Particle)
    (xlo xhi ylo yhi : ℚ) : List Particle :=
  groundparticles.filter (gp_query xlo xhi ylo yhi)

/-- A particle with the obsolete neutrino species code 4, sitting at the
origin. -/
def neutrinoParticle : Particle := ⟨4, 0, 0, 0, 0, 0, 1⟩

/-- The `cos(theta)` floor used by
`HiSPARCSimulation.simulate_detector_mips` to cap the path length
through the detector (`min_costheta = 2. / 112.`). -/
noncomputable def min_costheta : ℝ := 2 / 112

/-- `cos(theta)` of a particle, floored at `min_costheta`. -/
noncomputable def costheta_clamped (theta : ℝ) : ℝ :=
  max (Real.cos theta) min_costheta

/-- First branch (`y < 0.3394`) of the mips inverse CDF of
`simulate_detector_mips`, before division by `costheta`. -/
noncomputable def mips_branch1 (y : ℝ) : ℝ := 0.48 + 0.8583 * Real.sqrt y

/-- Second branch (`0.3394 ≤ y < 0.4344`). -/
noncomputable def mips_branch2 (y : ℝ) : ℝ := 0.73 + 0.7366 * y

/-- Third branch (`0.4344 ≤ y < 0.9041`). -/
noncomputable def mips_branch3 (y : ℝ) : ℝ :=
  1.7752 - 1.0336 * Real.sqrt (0.9267 - y)

/-- Fourth branch (`0.9041 ≤ y`). -/
noncomputable def mips_branch4 (y : ℝ) : ℝ := 2.28 - 2.1316 * Real.sqrt (1 - y)

/-- The branch selection of `simulate_detector_mips` on the uniform draw
`y` (numerator of the per-particle mips). -/
noncomputable def mipsNum (y : ℝ) : ℝ :=
  if y < 0.3394 then mips_branch1 y
  else if y < 0.4344 then mips_branch2 y
  else if y < 0.9041 then mips_branch3 y
  else mips_branch4 y

/-- One particle's mips signal for uniform draw `y` and incidence angle
`theta`: the inverse-CDF branch divided by the clamped cosine. -/
noncomputable def mipsOne (y theta : ℝ) : ℝ := mipsNum y / costheta_clamped theta

/-- Modelled from the spec: `sapphire.utils.vector_length` is not under
`src/`; the spec derives the incidence angle as
`theta = arccos(|p_z| / |p|)`, so the length is the Euclidean norm. -/
noncomputable def vector_length (x y z : ℝ) : ℝ := Real.sqrt (x ^ 2 + y ^ 2 + z ^ 2)

/-- Incidence angle of a particle from its momentum
(`GroundParticlesSimulation.simulate_detector_mips_for_particles`):
`arccos(abs(p_z) / vector_length(p_x, p_y, p_z))`. -/
noncomputable def particle_theta (p : Particle) : ℝ :=
  Real.arccos (|(p.p_z : ℝ)| / vector_length (p.p_x : ℝ) (p.p_y : ℝ) (p.p_z : ℝ))

/-- Modelled from the spec: `sapphire.utils.ceil_in_base` is not under
`src/`; per the spec the arrival time is "quantized to the nearest ADC
sampling boundary (ceiling to a fixed bin width, default 2.5 ns)". -/
noncomputable def ceil_in_base (t base : ℝ) : ℝ := ⌈t / base⌉ * base

/-- `HiSPARCSimulation.simulate_adc_sampling`: ceil the time to the
2.5 ns ADC bin. -/
noncomputable def simulate_adc_sampling (t : ℝ) : ℝ := ceil_in_base t 2.5

/-- `HiSPARCSimulation.simulate_signal_transport_time` for one uniform
draw `u`: the two-piece scintillation-transport distribution. -/
noncomputable def signal_transport_time (u : ℝ) : ℝ :=
  if u < 0.39377 then 2.5507 + 2.39885 * u else 1.56764 + 4.89536 * u

/-- `simulate_detector_mips` summed over the selected particles: one
uniform draw per particle (stream `ys`), each contributing its
inverse-CDF mips divided by its clamped `cos(theta)`. -/
noncomputable def simulate_detector_mips_for_particles (particles : List Particle)
    (ys : ℕ → ℝ) : ℝ :=
  (particles.enum.map (fun ip => mipsOne (ys ip.1) (particle_theta ip.2))).sum

/-- Python `round(x, 3)`: round to 3 decimals (tie-breaking at exact
half-thousandths is immaterial to the claims about positivity). -/
noncomputable def roundTo3 (x : ℝ) : ℝ := (round (1000 * x) : ℤ) / 1000

/-- Observable bundle returned by
`GroundParticlesSimulation.simulate_detector_response`. -/
structure Observables where
  n : ℝ
  t : ℝ

/-- `GroundParticlesSimulation.simulate_detector_response`: with no
particles selected return the sentinel `{n: 0., t: -999}`; otherwise `n`
is the summed mips rounded to 3 decimals and `t` the ADC-quantized first
signal (minimum of the particle times plus per-particle transport
jitter, plus the detector offset, minus the height projection
`z / (c * cos(zenith))`).  The uniform draws `ys` (mips) and `us`
(transport) are passed as streams. -/
noncomputable def simulate_detector_response (particles : List Particle)
    (ys us : ℕ → ℝ) (offset zenith z_det c_light : ℝ) : Observables :=
  if particles.length ≠ 0 then
    let mips := simulate_detector_mips_for_particles particles ys
    let times := particles.enum.map
      (fun ip => (ip.2.t : ℝ) + signal_transport_time (us ip.1))
    let tproj := z_det / (c_light * Real.cos zenith)
    let first_signal := times.foldl min (times.headD 0) + offset - tproj
    ⟨roundTo3 mips, simulate_adc_sampling first_signal⟩
  else
    ⟨0, -999⟩

/-- Shower parameters generated per trial by
`GroundParticlesSimulation.generate_shower_parameters` (the fields the
determinism claim is about). -/
structure ShowerParams where
  ext_timestamp : ℤ
  core_x : ℝ
  core_y : ℝ
  azimuth : ℝ

/-- `HiSPARCSimulation.generate_core_position`:
`r = sqrt(uniform(0, r_max^2))`, `phi = uniform(-pi, pi)`; the two
uniform draws `u_r, u_phi` from `[0, 1)` are passed in explicitly
(`uniform(a, b) = a + u * (b - a)`). -/
noncomputable def generate_core_position (r_max u_r u_phi : ℝ) : ℝ × ℝ :=
  (Real.sqrt (u_r * r_max ^ 2) * Real.cos (-Real.pi + u_phi * (2 * Real.pi)),
   Real.sqrt (u_r * r_max ^ 2) * Real.sin (-Real.pi + u_phi * (2 * Real.pi)))

/-- The per-trial loop of
`GroundParticlesSimulation.generate_shower_parameters`: `now =
int(time())` is the wall-clock second at which the run starts; trial `i`
gets `ext_timestamp = (now + i) * 10^9`, a core position from two
uniform draws and an azimuth (`uniform(-pi, pi)`) from a third — three
draws per trial from the seeded process-wide stream `u`. -/
noncomputable def generate_shower_parameters (now : ℤ) (n : ℕ) (u : ℕ → ℝ) (r_max : ℝ) :
    List ShowerParams :=
  (List.range n).map (fun (i : ℕ) =>
    { ext_timestamp := (now + (i : ℤ)) * 10 ^ 9
      core_x := (generate_core_position r_max (u (3 * i)) (u (3 * i + 1))).1
      core_y := (generate_core_position r_max (u (3 * i)) (u (3 * i + 1))).2
      azimuth := -Real.pi + u (3 * i + 2) * (2 * Real.pi) })

/-- Result of one trial of `BaseSimulation.run`. -/
structure TrialResult where
  tables : ℕ → List StationEvent
  station_events : List (ℕ × ℕ)
  coincidences : List Coincidence
  c_index : List (List (ℕ × ℕ))

/-- One iteration of the loop in `BaseSimulation.run`: simulate all
station events for the shower, then — only when the cluster has more
than one station — append one coincidence row and its `c_index` entry,
unconditionally on how many stations fired. -/
def run_trial (tables : ℕ → List StationEvent) (coincidences : List Coincidence)
    (c_index : List (List (ℕ × ℕ))) (shower_id : ℕ) (shower_ext : ℤ)
    (gps_offset unc : ℕ → ℚ) (stations : List (List DetectorObservables)) :
    TrialResult :=
  let r := simulate_events_for_shower shower_ext gps_offset unc stations tables
  if 1 < stations.length then
    ⟨r.1, r.2, coincidences ++ [store_coincidence r.1 stations.length shower_id r.2],
     c_index ++ [r.2]⟩
  else
    ⟨r.1, r.2, coincidences, c_index⟩

end Sapphire

namespace Sapphire

theorem arrival_times_length (obs : List DetectorObservables) :
    (arrival_times obs).length = validCount obs := by
  simp [arrival_times, validCount]

theorem countAboveHigh_le (obs : List DetectorObservables) :
    countAboveHigh obs ≤ countAboveLow obs := by
  unfold countAboveHigh countAboveLow
  rw [← List.countP_eq_length_filter, ← List.countP_eq_length_filter]
  refine List.countP_mono_left (fun o _ h => ?_)
  have h2 : (1/2 : ℚ) < o.n := by simpa using h
  simp only [decide_eq_true_eq]
  linarith

theorem countAboveLow_le_validCount (obs : List DetectorObservables)
    (h : obs.length ≤ 4) : countAboveLow obs ≤ validCount obs := by
  unfold countAboveLow validCount
  rw [List.take_of_length_le h]
  rw [← List.countP_eq_length_filter, ← List.countP_eq_length_filter]
  refine List.countP_mono_left (fun o _ ho => ?_)
  have h2 : (3/10 : ℚ) < o.n := by simpa using ho
  simp only [decide_eq_true_eq]
  linarith

theorem simulate_trigger_true_iff (obs : List DetectorObservables) :
    simulate_trigger obs = true ↔
      ((obs.length = 4 ∧ (2 ≤ countAboveHigh obs ∨ 3 ≤ countAboveLow obs)) ∨
       (obs.length = 2 ∧ 2 ≤ countAboveLow obs)) := by
  unfold simulate_trigger
  split
  · simp_all
  · split <;> simp_all

theorem trigger_true_validCount (obs : List DetectorObservables)
    (h : simulate_trigger obs = true) : 2 ≤ validCount obs := by
  rcases (simulate_trigger_true_iff obs).mp h with ⟨h4, hc⟩ | ⟨h2, hc⟩
  · have hle := countAboveLow_le_validCount obs (by omega)
    rcases hc with hh | hl
    · have := countAboveHigh_le obs
      omega
    · omega
  · have hle := countAboveLow_le_validCount obs (by omega)
    omega

theorem sim_events_aux_spec (shower_ext : ℤ) (gps_offset unc : ℕ → ℚ)
    (stations : List (List DetectorObservables)) :
    ∀ (sid : ℕ) (tables : ℕ → List StationEvent),
      (∀ p ∈ (sim_events_aux shower_ext gps_offset unc sid stations tables).2,
          sid ≤ p.1 ∧ p.1 < sid + stations.length ∧
          simulate_trigger (stations.getD (p.1 - sid) []) = true ∧
          p.2 = (tables p.1).length ∧
          ((sim_events_aux shower_ext gps_offset unc sid stations tables).1 p.1)[p.2]? =
            some (mk_station_event (stations.getD (p.1 - sid) []) shower_ext
              (gps_offset p.1) (unc p.1) (tables p.1).length)) ∧
      (∀ j < sid,
        (sim_events_aux shower_ext gps_offset unc sid stations tables).1 j = tables j) ∧
      (∀ i < stations.length, simulate_trigger (stations.getD i []) = true →
          (sid + i, (tables (sid + i)).length) ∈
            (sim_events_aux shower_ext gps_offset unc sid stations tables).2) := by
  induction stations with
  | nil =>
    intro sid tables
    refine ⟨?_, ?_, ?_⟩ <;> simp [sim_events_aux]
  | cons obs rest ih =>
    intro sid tables
    by_cases htrig : simulate_trigger obs = true
    · have hstep : sim_events_aux shower_ext gps_offset unc sid (obs :: rest) tables =
        ((sim_events_aux shower_ext gps_offset unc (sid + 1) rest
            (Function.update tables sid (tables sid ++
              [mk_station_event obs shower_ext (gps_offset sid) (unc sid)
                (tables sid).length]))).1,
          (sid, (tables sid ++
              [mk_station_event obs shower_ext (gps_offset sid) (unc sid)
                (tables sid).length]).length - 1) ::
          (sim_events_aux shower_ext gps_offset unc (sid + 1) rest
            (Function.update tables sid (tables sid ++
              [mk_station_event obs shower_ext (gps_offset sid) (unc sid)
                (tables sid).length]))).2) := by
        simp only [sim_events_aux, store_station_observables, htrig, if_true]
      set ev := mk_station_event obs shower_ext (gps_offset sid) (unc sid)
        (tables sid).length with hev
      set tables2 := Function.update tables sid (tables sid ++ [ev]) with htables2
      obtain ⟨ih1, ih2, ih3⟩ := ih (sid + 1) tables2
      have hidx : (tables sid ++ [ev]).length - 1 = (tables sid).length := by
        simp
      have htbl2_ne : ∀ j, j ≠ sid → tables2 j = tables j := by
        intro j hj
        simp [htables2, Function.update_noteq hj]
      have htbl2_eq : tables2 sid = tables sid ++ [ev] := by
        simp [htables2]
      refine ⟨?_, ?_, ?_⟩
      · intro p hp
        rw [hstep] at hp
        simp only [List.mem_cons] at hp
        rcases hp with hp | hp
        · subst hp
          refine ⟨le_refl _, by simp, by simp [htrig], hidx, ?_⟩
          rw [hstep]
          dsimp only
          rw [hidx, ih2 sid (by omega), htbl2_eq]
          simp only [Nat.sub_self, List.getD_cons_zero]
          exact List.getElem?_concat_length (tables sid) ev
        · obtain ⟨hge, hlt, htr, hp2, hget⟩ := ih1 p hp
          have hne : p.1 ≠ sid := by omega
          have hshift : (obs :: rest).getD (p.1 - sid) [] = rest.getD (p.1 - (sid + 1)) [] := by
            have h1 : p.1 - sid = (p.1 - (sid + 1)) + 1 := by omega
            rw [h1]
            simp
          refine ⟨by omega, by simp; omega, ?_, ?_, ?_⟩
          · rw [hshift]; exact htr
          · rw [hp2, htbl2_ne p.1 hne]
          · rw [hstep]
            dsimp only
            rw [hshift, ← htbl2_ne p.1 hne]
            exact hget
      · intro j hj
        rw [hstep]
        simp only
        rw [ih2 j (by omega), htbl2_ne j (by omega)]
      · intro i hi htri
        rw [hstep]
        rcases Nat.eq_zero_or_pos i with hi0 | hipos
        · subst hi0
          simp only [Nat.add_zero, hidx.symm]
          exact List.mem_cons_self _ _
        · obtain ⟨k, hk⟩ := Nat.exists_eq_add_of_lt hipos
          have hik : i = k + 1 := by omega
          subst hik
          have htr' : simulate_trigger (rest.getD k []) = true := by
            rw [List.getD_cons_succ] at htri
            exact htri
          have := ih3 k (by simpa using hi) htr'
          have harr : sid + (k + 1) = sid + 1 + k := by omega
          rw [harr, ← htbl2_ne (sid + 1 + k) (by omega)]
          exact List.mem_cons_of_mem _ this
    · have hstep : sim_events_aux shower_ext gps_offset unc sid (obs :: rest) tables =
          sim_events_aux shower_ext gps_offset unc (sid + 1) rest tables := by
        simp only [sim_events_aux]
        rw [if_neg htrig]
      obtain ⟨ih1, ih2, ih3⟩ := ih (sid + 1) tables
      refine ⟨?_, ?_, ?_⟩
      · intro p hp
        rw [hstep] at hp
        obtain ⟨hge, hlt, htr, hp2, hget⟩ := ih1 p hp
        have hshift : (obs :: rest).getD (p.1 - sid) [] = rest.getD (p.1 - (sid + 1)) [] := by
          have h1 : p.1 - sid = (p.1 - (sid + 1)) + 1 := by omega
          rw [h1]
          simp
        refine ⟨by omega, by simp; omega, ?_, hp2, ?_⟩
        · rw [hshift]; exact htr
        · rw [hstep]
          rw [hshift]
          exact hget
      · intro j hj
        rw [hstep]
        exact ih2 j (by omega)
      · intro i hi htri
        rw [hstep]
        rcases Nat.eq_zero_or_pos i with hi0 | hipos
        · subst hi0
          simp at htri
          exact absurd htri htrig
        · obtain ⟨k, hk⟩ := Nat.exists_eq_add_of_lt hipos
          have hik : i = k + 1 := by omega
          subst hik
          have htr' : simulate_trigger (rest.getD k []) = true := by
            rw [List.getD_cons_succ] at htri
            exact htri
          have := ih3 k (by simpa using hi) htr'
          have harr : sid + (k + 1) = sid + 1 + k := by omega
          rw [harr]
          exact this

/-- C1: for a station with at least two valid per-detector arrival times
(`n_i > 0`), `simulate_gps` sets the trigger time to the second-smallest
valid arrival time (an element with at most one strictly smaller value
and at least two values `≤` it, counted with multiplicity); on detector
times `[5, 3, 9, -999]` with the last count 0 it is `5` and not the
minimum `3`, and for a two-detector station with valid times `[10, 12]`
it is `12`. -/
theorem t_trigger_second_smallest :
    (∀ obs : List DetectorObservables, 2 ≤ validCount obs →
      ∃ tt, t_trigger obs = some tt ∧ tt ∈ arrival_times obs ∧
        (arrival_times obs).countP (fun t => decide (t < tt)) ≤ 1 ∧
        2 ≤ (arrival_times obs).countP (fun t => decide (t ≤ tt))) ∧
    t_trigger gpsExampleA = some 5 ∧
    (3 ∈ arrival_times gpsExampleA ∧ ∀ t ∈ arrival_times gpsExampleA, 3 ≤ t) ∧
    t_trigger gpsExampleA ≠ some 3 ∧
    t_trigger gpsExampleB = some 12 := by
  refine ⟨?_, ?_, ?_, ?_, ?_⟩
  · intro obs hv
    have hlen : 1 < (arrival_times obs).length := by
      rw [arrival_times_length]; omega
    have hslen : 1 < (List.insertionSort (fun a b => a ≤ b) (arrival_times obs)).length := by
      simpa [List.length_insertionSort] using hlen
    have hperm := List.perm_insertionSort (fun a b => a ≤ b) (arrival_times obs)
    have hsort := List.sorted_insertionSort (fun a b => a ≤ b) (arrival_times obs)
    obtain ⟨a, b, rest, hs⟩ : ∃ a b rest,
        List.insertionSort (fun a b => a ≤ b) (arrival_times obs) = a :: b :: rest := by
      match h : List.insertionSort (fun a b => a ≤ b) (arrival_times obs) with
      | [] => rw [h] at hslen; simp at hslen
      | [a] => rw [h] at hslen; simp at hslen
      | a :: b :: rest => exact ⟨a, b, rest, rfl⟩
    rw [hs] at hperm hsort
    have hab : a ≤ b := (List.sorted_cons.mp hsort).1 b (by simp)
    have hbrest : ∀ x ∈ rest, b ≤ x :=
      fun x hx => (List.sorted_cons.mp (List.sorted_cons.mp hsort).2).1 x hx
    refine ⟨b, ?_, ?_, ?_, ?_⟩
    · unfold t_trigger
      rw [dif_pos hlen, List.get_of_eq hs]
      rfl
    · exact hperm.mem_iff.mp (by simp)
    · rw [← hperm.countP_eq]
      have hrest0 : rest.countP (fun t => decide (t < b)) = 0 :=
        List.countP_eq_zero.mpr (fun x hx => by simpa using not_lt.mpr (hbrest x hx))
      simp only [List.countP_cons, hrest0, decide_eq_true_eq, lt_irrefl, if_false]
      split <;> omega
    · rw [← hperm.countP_eq]
      simp only [List.countP_cons, decide_eq_true_eq, le_refl, if_true]
      rw [if_pos hab]
      omega
  · norm_num [t_trigger, arrival_times, gpsExampleA]
  · norm_num [arrival_times, gpsExampleA]
  · norm_num [t_trigger, arrival_times, gpsExampleA]
  · norm_num [t_trigger, arrival_times, gpsExampleB]

/-- Concrete instantiation of the universal part of C1 at the spec's
example station. -/
theorem t_trigger_second_smallest_witness :
    ∃ tt, t_trigger gpsExampleA = some tt ∧ tt ∈ arrival_times gpsExampleA ∧
      (arrival_times gpsExampleA).countP (fun t => decide (t < tt)) ≤ 1 ∧
      2 ≤ (arrival_times gpsExampleA).countP (fun t => decide (t ≤ tt)) :=
  t_trigger_second_smallest.1 gpsExampleA (by norm_num [validCount, gpsExampleA])

/-- C2: the trigger fires exactly per the 4-detector (≥2 high or ≥3 low)
and 2-detector (≥2 low) rules, a detector above high also counts as
above low, and a 4-detector station with one detector above high and one
other above low does not fire.  Same characterization for the GEANT4
pulse-height trigger. -/
theorem simulate_trigger_spec :
    (∀ obs : List DetectorObservables,
      simulate_trigger obs = true ↔
        ((obs.length = 4 ∧ (2 ≤ countAboveHigh obs ∨ 3 ≤ countAboveLow obs)) ∨
         (obs.length = 2 ∧ 2 ≤ countAboveLow obs))) ∧
    (∀ obs : List DetectorObservables, countAboveHigh obs ≤ countAboveLow obs) ∧
    (simulate_trigger [⟨3/5, 0⟩, ⟨2/5, 0⟩, ⟨0, -999⟩, ⟨0, -999⟩] = false) ∧
    (∀ obs : List GeantDetectorObservables,
      simulate_trigger_geant obs = true ↔
        ((obs.length = 4 ∧ (2 ≤ countAboveHighGeant obs ∨ 3 ≤ countAboveLowGeant obs)) ∨
         (obs.length = 2 ∧ 2 ≤ countAboveLowGeant obs))) := by
  refine ⟨?_, ?_, ?_, ?_⟩
  · intro obs
    unfold simulate_trigger
    split
    · simp_all
    · split <;> simp_all
  · intro obs
    unfold countAboveHigh countAboveLow
    rw [← List.countP_eq_length_filter, ← List.countP_eq_length_filter]
    refine List.countP_mono_left (fun o _ h => ?_)
    have h2 : (1/2 : ℚ) < o.n := by simpa using h
    simp only [decide_eq_true_eq]
    linarith
  · norm_num [simulate_trigger, countAboveHigh, countAboveLow]
  · intro obs
    unfold simulate_trigger_geant
    split
    · simp_all
    · split <;> simp_all


theorem t_trigger_none_of_lt_two (obs : List DetectorObservables)
    (h : validCount obs < 2) : t_trigger obs = none := by
  unfold t_trigger
  rw [dif_neg]
  rw [arrival_times_length]
  omega

/-- C4: a station with fewer than two valid per-detector signals
(`n_i > 0`) gets no GPS timestamp fields and its trigger is false, so no
event is stored for it in the trial; conversely a triggered station
always has at least two valid signals and therefore always gets GPS
timestamp fields — the trigger and timestamp stages agree. -/
theorem no_timestamp_means_no_event :
    (∀ (obs : List DetectorObservables) (shower_ext : ℤ) (gps_offset unc : ℚ),
      validCount obs < 2 →
        simulate_gps obs shower_ext gps_offset unc = none ∧
        simulate_trigger obs = false) ∧
    (∀ (obs : List DetectorObservables) (shower_ext : ℤ) (gps_offset unc : ℚ),
      simulate_trigger obs = true →
        ∃ g, simulate_gps obs shower_ext gps_offset unc = some g) ∧
    (∀ (shower_ext : ℤ) (gps_offset unc : ℕ → ℚ)
        (stations : List (List DetectorObservables)) (tables : ℕ → List StationEvent)
        (sid : ℕ), validCount (stations.getD sid []) < 2 →
        ∀ j, (sid, j) ∉
          (simulate_events_for_shower shower_ext gps_offset unc stations tables).2) := by
  refine ⟨?_, ?_, ?_⟩
  · intro obs shower_ext gps_offset unc h
    constructor
    · unfold simulate_gps
      rw [t_trigger_none_of_lt_two obs h]
      rfl
    · by_contra hfalse
      have htrue : simulate_trigger obs = true := by
        revert hfalse
        cases simulate_trigger obs <;> simp
      have := trigger_true_validCount obs htrue
      omega
  · intro obs shower_ext gps_offset unc h
    have hv := trigger_true_validCount obs h
    have hlen : 1 < (arrival_times obs).length := by
      rw [arrival_times_length]; omega
    unfold simulate_gps t_trigger
    rw [dif_pos hlen]
    exact ⟨_, rfl⟩
  · intro shower_ext gps_offset unc stations tables sid hv j hmem
    obtain ⟨-, -, htr, -, -⟩ :=
      (sim_events_aux_spec shower_ext gps_offset unc stations 0 tables).1 (sid, j) hmem
    simp only [Nat.sub_zero] at htr
    have := trigger_true_validCount _ htr
    omega

/-- Instantiation of C4 at a station with a single valid signal. -/
theorem no_timestamp_means_no_event_witness :
    (simulate_gps [⟨1, 5⟩, ⟨0, -999⟩] 0 0 0 = none ∧
      simulate_trigger [⟨1, 5⟩, ⟨0, -999⟩] = false) ∧
    (∃ g, simulate_gps gpsExampleB 0 0 0 = some g) ∧
    (0, 0) ∉ (simulate_events_for_shower 0 (fun _ => 0) (fun _ => 0)
      [[⟨1, 5⟩, ⟨0, -999⟩]] (fun _ => [])).2 :=
  ⟨no_timestamp_means_no_event.1 [⟨1, 5⟩, ⟨0, -999⟩] 0 0 0
      (by norm_num [validCount]),
   no_timestamp_means_no_event.2.1 gpsExampleB 0 0 0
      (by norm_num [simulate_trigger, countAboveLow, countAboveHigh, gpsExampleB]),
   no_timestamp_means_no_event.2.2 0 (fun _ => 0) (fun _ => 0)
      [[⟨1, 5⟩, ⟨0, -999⟩]] (fun _ => []) 0 (by norm_num [validCount]) 0⟩


theorem lexLe_refl (a : ℤ × ℤ × ℤ) : lexLe a a := by
  unfold lexLe
  omega

theorem insertionSort_headD_min (l : List (ℤ × ℤ × ℤ)) (hl : l ≠ []) :
    (List.insertionSort lexLe l).headD (0, 0, 0) ∈ l ∧
    ∀ t ∈ l, lexLe ((List.insertionSort lexLe l).headD (0, 0, 0)) t := by
  have hperm := List.perm_insertionSort lexLe l
  have hsort := List.sorted_insertionSort lexLe l
  obtain ⟨h, tail, hs⟩ : ∃ h tail, List.insertionSort lexLe l = h :: tail := by
    match hmatch : List.insertionSort lexLe l with
    | [] =>
      rw [hmatch] at hperm
      exact absurd hperm.symm.eq_nil hl
    | h :: tail => exact ⟨h, tail, rfl⟩
  rw [hs] at hperm hsort
  rw [hs]
  constructor
  · exact hperm.mem_iff.mp (by simp)
  · intro t ht
    rcases List.mem_cons.mp (hperm.mem_iff.mpr ht) with rfl | htail
    · exact lexLe_refl t
    · exact List.rel_of_sorted_cons hsort t htail

/-- C5 counterexample: a trial on a two-station cluster in which no
station fires still persists one coincidence row (with an empty station
list), so a coincidence is not stored "iff at least one station fired". -/
theorem coincidence_stored_without_firing :
    (run_trial (fun _ => []) [] [] 0 0 (fun _ => 0) (fun _ => 0)
      [[⟨0, -999⟩, ⟨0, -999⟩], [⟨0, -999⟩, ⟨0, -999⟩]]).station_events = [] ∧
    ((run_trial (fun _ => []) [] [] 0 0 (fun _ => 0) (fun _ => 0)
      [[⟨0, -999⟩, ⟨0, -999⟩], [⟨0, -999⟩, ⟨0, -999⟩]]).coincidences).length = 1 := by
  norm_num [run_trial, simulate_events_for_shower, sim_events_aux, simulate_trigger,
    countAboveLow, countAboveHigh]

/-- C5 (amended): on a cluster with more than one station every trial
appends exactly one coincidence row — whether or not any station fired —
whose `N` is the number of firing stations and whose `c_index` entry is
exactly the firing `(station_id, row_index)` pairs; its timestamp fields
are the lexicographically earliest `(ext_timestamp, timestamp,
nanoseconds)` triple among the firing stations' stored events, and
`(0, 0, 0)` when no station fired.  A single-station cluster stores no
coincidence. -/
theorem coincidence_per_trial (tables : ℕ → List StationEvent)
    (coincs : List Coincidence) (cidx : List (List (ℕ × ℕ))) (shower_id : ℕ)
    (shower_ext : ℤ) (gps_offset unc : ℕ → ℚ)
    (stations : List (List DetectorObservables)) (res : TrialResult)
    (hres : res = run_trial tables coincs cidx shower_id shower_ext gps_offset unc stations) :
    (stations.length ≤ 1 → res.coincidences = coincs ∧ res.c_index = cidx) ∧
    (1 < stations.length →
      ∃ co, res.coincidences = coincs ++ [co] ∧
        res.c_index = cidx ++ [res.station_events] ∧
        co.N = res.station_events.length ∧
        (res.station_events = [] →
          (co.ext_timestamp, co.timestamp, co.nanoseconds) = ((0 : ℤ), (0 : ℤ), (0 : ℤ))) ∧
        (res.station_events ≠ [] →
          (co.ext_timestamp, co.timestamp, co.nanoseconds) ∈
            res.station_events.map
              (fun p => tripleOf ((res.tables p.1).getD p.2 ⟨0, 0, 0, 0, []⟩)) ∧
          ∀ t ∈ res.station_events.map
              (fun p => tripleOf ((res.tables p.1).getD p.2 ⟨0, 0, 0, 0, []⟩)),
            lexLe (co.ext_timestamp, co.timestamp, co.nanoseconds) t)) := by
  subst hres
  by_cases hlen : 1 < stations.length
  · have hres2 : run_trial tables coincs cidx shower_id shower_ext gps_offset unc stations =
        ⟨(simulate_events_for_shower shower_ext gps_offset unc stations tables).1,
         (simulate_events_for_shower shower_ext gps_offset unc stations tables).2,
         coincs ++ [store_coincidence
            (simulate_events_for_shower shower_ext gps_offset unc stations tables).1
            stations.length shower_id
            (simulate_events_for_shower shower_ext gps_offset unc stations tables).2],
         cidx ++ [(simulate_events_for_shower shower_ext gps_offset unc stations tables).2]⟩ := by
      unfold run_trial
      rw [if_pos hlen]
    rw [hres2]
    refine ⟨fun hc => absurd hlen (by omega), fun _ => ?_⟩
    set evs := (simulate_events_for_shower shower_ext gps_offset unc stations tables).2 with hevs
    set tbl := (simulate_events_for_shower shower_ext gps_offset unc stations tables).1 with htbl
    refine ⟨store_coincidence tbl stations.length shower_id evs, rfl, rfl, rfl, ?_, ?_⟩
    · intro hempty
      rw [show evs = [] from hempty]
      rfl
    · intro hne
      have hne2 : evs ≠ [] := hne
      set ts := evs.map (fun p => tripleOf ((tbl p.1).getD p.2 ⟨0, 0, 0, 0, []⟩)) with hts
      have htsne : ts ≠ [] := by
        simpa [hts] using hne2
      obtain ⟨hmem, hmin⟩ := insertionSort_headD_min ts htsne
      have hco : ((store_coincidence tbl stations.length shower_id evs).ext_timestamp,
          (store_coincidence tbl stations.length shower_id evs).timestamp,
          (store_coincidence tbl stations.length shower_id evs).nanoseconds) =
          (List.insertionSort lexLe ts).headD (0, 0, 0) := by
        rfl
      rw [hco]
      exact ⟨hmem, hmin⟩
  · have hres2 : run_trial tables coincs cidx shower_id shower_ext gps_offset unc stations =
        ⟨(simulate_events_for_shower shower_ext gps_offset unc stations tables).1,
         (simulate_events_for_shower shower_ext gps_offset unc stations tables).2,
         coincs, cidx⟩ := by
      unfold run_trial
      rw [if_neg hlen]
    rw [hres2]
    exact ⟨fun _ => ⟨rfl, rfl⟩, fun hc => absurd hc hlen⟩

/-- Instantiation of the amended C5 at a concrete two-station trial with
one firing station. -/
theorem coincidence_per_trial_witness :
    ∃ co, (run_trial (fun _ => []) [] [] 0 0 (fun _ => 0) (fun _ => 0)
        [gpsExampleB, [⟨0, -999⟩, ⟨0, -999⟩]]).coincidences = [] ++ [co] ∧
      co.N = (run_trial (fun _ => []) [] [] 0 0 (fun _ => 0) (fun _ => 0)
        [gpsExampleB, [⟨0, -999⟩, ⟨0, -999⟩]]).station_events.length := by
  obtain ⟨co, h1, h2, h3, h4, h5⟩ :=
    (coincidence_per_trial (fun _ => []) [] [] 0 0 (fun _ => 0) (fun _ => 0)
      [gpsExampleB, [⟨0, -999⟩, ⟨0, -999⟩]] _ rfl).2 (by norm_num)
  exact ⟨co, h1, h3⟩

/-- C9: `store_station_observables` returns exactly the index of the row
it appended; a trial's `c_index` entry is exactly its `station_events`
list; and every `(station_id, event_index)` pair recorded in a trial
resolves, in the post-trial tables, to the event row appended for that
station during this very trial (its index is the pre-trial row count of
that station's table). -/
theorem coincidence_index_roundtrip :
    (∀ (tables : ℕ → List StationEvent) (sid : ℕ) (ev : StationEvent),
      (store_station_observables tables sid ev).2 = (tables sid).length ∧
      ((store_station_observables tables sid ev).1 sid)[(tables sid).length]? = some ev) ∧
    (∀ (tables : ℕ → List StationEvent) (coincs : List Coincidence)
        (cidx : List (List (ℕ × ℕ))) (shower_id : ℕ) (shower_ext : ℤ)
        (gps_offset unc : ℕ → ℚ) (stations : List (List DetectorObservables)),
      1 < stations.length →
      (run_trial tables coincs cidx shower_id shower_ext gps_offset unc stations).c_index =
        cidx ++ [(run_trial tables coincs cidx shower_id shower_ext gps_offset unc
          stations).station_events]) ∧
    (∀ (shower_ext : ℤ) (gps_offset unc : ℕ → ℚ)
        (stations : List (List DetectorObservables)) (tables : ℕ → List StationEvent),
      ∀ p ∈ (simulate_events_for_shower shower_ext gps_offset unc stations tables).2,
        p.2 = (tables p.1).length ∧
        ((simulate_events_for_shower shower_ext gps_offset unc stations tables).1 p.1)[p.2]? =
          some (mk_station_event (stations.getD p.1 []) shower_ext (gps_offset p.1)
            (unc p.1) (tables p.1).length)) := by
  refine ⟨?_, ?_, ?_⟩
  · intro tables sid ev
    unfold store_station_observables
    refine ⟨by simp, ?_⟩
    dsimp only
    rw [Function.update_same]
    exact List.getElem?_concat_length _ _
  · intro tables coincs cidx shower_id shower_ext gps_offset unc stations h
    unfold run_trial
    rw [if_pos h]
  · intro shower_ext gps_offset unc stations tables p hp
    obtain ⟨-, -, -, hp2, hget⟩ :=
      (sim_events_aux_spec shower_ext gps_offset unc stations 0 tables).1 p hp
    simp only [Nat.sub_zero] at hget
    exact ⟨hp2, hget⟩

/-- Instantiation of C9 at a one-station trial whose station fires: the
recorded pair `(0, 0)` resolves to the event appended for it. -/
theorem coincidence_index_roundtrip_witness :
    ((simulate_events_for_shower 0 (fun _ => 0) (fun _ => 0) [gpsExampleB]
        (fun _ => [])).1 0)[(0 : ℕ)]? =
      some (mk_station_event gpsExampleB 0 0 0 0) := by
  have h := (coincidence_index_roundtrip.2.2 0 (fun _ => 0) (fun _ => 0) [gpsExampleB]
      (fun _ => []) (0, 0)
      (by norm_num [simulate_events_for_shower, sim_events_aux,
        store_station_observables, simulate_trigger, countAboveLow, countAboveHigh,
        gpsExampleB])).2
  simpa using h


/-- C7: the two boundary values are always returned lower first; the
example `((0,0), (1,1), (0,2))` yields boundaries `0` and `2` around the
line `y - 1·x`; and whenever the first two points share their x
coordinate the vertical (x-only) boundary form is used instead of a
slope-intercept line. -/
theorem get_line_boundary_eqs_spec :
    (∀ p0 p1 p2 : ℚ × ℚ,
      (get_line_boundary_eqs p0 p1 p2).1 ≤ (get_line_boundary_eqs p0 p1 p2).2.2) ∧
    get_line_boundary_eqs (0, 0) (1, 1) (0, 2) = (0, LineEq.slope 1, 2) ∧
    (∀ p0 p1 p2 : ℚ × ℚ, p0.1 = p1.1 →
      (get_line_boundary_eqs p0 p1 p2).2.1 = LineEq.vertical) := by
  refine ⟨?_, ?_, ?_⟩
  · intro p0 p1 p2
    unfold get_line_boundary_eqs
    split
    · dsimp only
      split <;> dsimp only <;> linarith
    · dsimp only
      split <;> dsimp only <;> linarith
  · norm_num [get_line_boundary_eqs]
  · intro p0 p1 p2 h
    unfold get_line_boundary_eqs
    rw [if_pos h]
    dsimp only
    split <;> rfl

/-- Instantiation of C7's vertical-line clause at concrete corners
sharing their x coordinate. -/
theorem get_line_boundary_eqs_spec_witness :
    (get_line_boundary_eqs ((0 : ℚ), (0 : ℚ)) (0, 5) (3, 1)).2.1 = LineEq.vertical :=
  get_line_boundary_eqs_spec.2.2 (0, 0) (0, 5) (3, 1) rfl

/-- C8 counterexample: a particle carrying the neutrino species code 4
that lies inside the bounding box is returned by
`get_particles_in_detector` — the species filter `2 <= particle_id <= 6`
does not exclude the neutrino code. -/
theorem neutrino_not_excluded :
    neutrinoParticle.particle_id = 4 ∧
    get_particles_in_detector [neutrinoParticle] (-1) 1 (-1) 1 = [neutrinoParticle] := by
  constructor
  · rfl
  · norm_num [get_particles_in_detector, gp_query, neutrinoParticle]

/-- C8 (amended): the pre-filter is exactly the axis-aligned bounding box
intersected with the species condition `2 ≤ particle_id ≤ 6` — which
keeps electrons, muons and the obsolete neutrino code 4, and excludes
gammas (code 1) and codes above 6. -/
theorem get_particles_in_detector_spec :
    ∀ (gps : List Particle) (xlo xhi ylo yhi : ℚ) (p : Particle),
      p ∈ get_particles_in_detector gps xlo xhi ylo yhi ↔
        p ∈ gps ∧ xlo ≤ p.x ∧ p.x ≤ xhi ∧ ylo ≤ p.y ∧ p.y ≤ yhi ∧
          2 ≤ p.particle_id ∧ p.particle_id ≤ 6 := by
  intro gps xlo xhi ylo yhi p
  simp [get_particles_in_detector, gp_query, List.mem_filter, and_assoc]

/-- C6 counterexample: two runs over the same seeded random stream but
started one wall-clock second apart produce different shower parameter
records (their `ext_timestamp` columns differ), because
`generate_shower_parameters` bakes `now = int(time())` into every
timestamp. -/
theorem rerun_not_identical :
    generate_shower_parameters 0 1 (fun _ => 0) 1 ≠
      generate_shower_parameters 1 1 (fun _ => 0) 1 := by
  intro h
  have hl : (generate_shower_parameters 0 1 (fun _ => 0) 1).map
      (fun s => s.ext_timestamp) = [0] := by
    norm_num [generate_shower_parameters, List.range_succ]
  have hr : (generate_shower_parameters 1 1 (fun _ => 0) 1).map
      (fun s => s.ext_timestamp) = [10 ^ 9] := by
    norm_num [generate_shower_parameters, List.range_succ]
  rw [h, hr] at hl
  norm_num at hl

/-- C6 (amended): two runs over the same seeded stream agree on every
generated core position and azimuth; their `ext_timestamp` columns are
offset by the difference of the wall-clock start seconds, so the outputs
are identical exactly when the runs start in the same second. -/
theorem same_seed_same_outputs_modulo_clock (u : ℕ → ℝ) (r_max : ℝ) (n : ℕ)
    (now1 now2 : ℤ) :
    ((generate_shower_parameters now1 n u r_max).map
        (fun s => (s.core_x, s.core_y, s.azimuth)) =
      (generate_shower_parameters now2 n u r_max).map
        (fun s => (s.core_x, s.core_y, s.azimuth))) ∧
    ((generate_shower_parameters now1 n u r_max).map (fun s => s.ext_timestamp) =
      (generate_shower_parameters now2 n u r_max).map
        (fun s => s.ext_timestamp + (now1 - now2) * 10 ^ 9)) ∧
    (now1 = now2 →
      generate_shower_parameters now1 n u r_max =
        generate_shower_parameters now2 n u r_max) := by
  refine ⟨?_, ?_, fun h => by rw [h]⟩
  · simp [generate_shower_parameters, List.map_map, Function.comp]
  · simp only [generate_shower_parameters, List.map_map]
    refine List.map_congr_left (fun i _ => ?_)
    simp only [Function.comp_apply]
    ring

/-- Instantiation of the amended C6: equal seeds and equal start seconds
give equal outputs. -/
theorem same_seed_same_outputs_modulo_clock_witness :
    generate_shower_parameters 5 2 (fun _ => 0) 1 =
      generate_shower_parameters 5 2 (fun _ => 0) 1 :=
  (same_seed_same_outputs_modulo_clock (fun _ => 0) 1 2 5 5).2.2 rfl


theorem sqrt_le_of_sq (a b : ℝ) (hb : 0 ≤ b) (h : a ≤ b ^ 2) : Real.sqrt a ≤ b := by
  calc Real.sqrt a ≤ Real.sqrt (b ^ 2) := Real.sqrt_le_sqrt h
  _ = b := Real.sqrt_sq hb

theorem le_sqrt_of_sq (a b : ℝ) (ha : 0 ≤ a) (h : a ^ 2 ≤ b) : a ≤ Real.sqrt b := by
  rw [show a = Real.sqrt (a ^ 2) from (Real.sqrt_sq ha).symm]
  exact Real.sqrt_le_sqrt h

/-- C3 counterexample: the mips inverse CDF is not monotonically
non-decreasing in the uniform draw.  Crossing the first breakpoint the
value drops: at `y = 0.58257² ≈ 0.33938780` (first branch) the mips is
`0.48 + 0.8583·0.58257 ≈ 0.98001983`, while at the larger draw
`y = 0.3394` (second branch) it is `0.73 + 0.7366·0.3394 = 0.98000204`. -/
theorem mips_not_monotone :
    ((0.58257 : ℝ) ^ 2 < 0.3394) ∧
    mipsOne 0.3394 0 < mipsOne ((0.58257 : ℝ) ^ 2) 0 := by
  have hsq : Real.sqrt ((0.58257 : ℝ) ^ 2) = 0.58257 := Real.sqrt_sq (by norm_num)
  have hlt : ((0.58257 : ℝ) ^ 2) < 0.3394 := by norm_num
  refine ⟨hlt, ?_⟩
  have hclamp : costheta_clamped 0 = 1 := by
    unfold costheta_clamped min_costheta
    rw [Real.cos_zero]
    norm_num
  unfold mipsOne
  rw [hclamp]
  have h1 : mipsNum ((0.58257 : ℝ) ^ 2) = 0.48 + 0.8583 * 0.58257 := by
    unfold mipsNum mips_branch1
    rw [if_pos hlt, hsq]
  have h2 : mipsNum (0.3394 : ℝ) = 0.73 + 0.7366 * 0.3394 := by
    unfold mipsNum mips_branch2
    rw [if_neg (by norm_num), if_pos (by norm_num)]
  rw [h1, h2]
  norm_num

set_option maxHeartbeats 2000000 in
/-- C3 (amended): the per-particle mips inverse CDF is piecewise over
`[0, 0.3394)`, `[0.3394, 0.4344)`, `[0.4344, 0.9041)`, `[0.9041, 1)`,
continuous at each of its three breakpoints to within `10⁻⁴`, and
monotonically non-decreasing within every piece and across the
`0.4344` and `0.9041` breakpoints; across the `0.3394` breakpoint it
instead *decreases*, by less than the same `10⁻⁴` tolerance (the second
branch value at the breakpoint lies below the first branch value).
Division by the clamped cosine (always in `(0, 1]`) preserves the
ordering, so the same holds for the full per-particle mips at any fixed
angle. -/
theorem mips_piecewise_spec :
    (∀ y : ℝ, y < 0.3394 → mipsNum y = mips_branch1 y) ∧
    (∀ y : ℝ, 0.3394 ≤ y → y < 0.4344 → mipsNum y = mips_branch2 y) ∧
    (∀ y : ℝ, 0.4344 ≤ y → y < 0.9041 → mipsNum y = mips_branch3 y) ∧
    (∀ y : ℝ, 0.9041 ≤ y → mipsNum y = mips_branch4 y) ∧
    (|mips_branch1 0.3394 - mips_branch2 0.3394| ≤ 1 / 10 ^ 4 ∧
     |mips_branch2 0.4344 - mips_branch3 0.4344| ≤ 1 / 10 ^ 4 ∧
     |mips_branch3 0.9041 - mips_branch4 0.9041| ≤ 1 / 10 ^ 4) ∧
    ((∀ y1 y2 : ℝ, y1 ≤ y2 → mips_branch1 y1 ≤ mips_branch1 y2) ∧
     (∀ y1 y2 : ℝ, y1 ≤ y2 → mips_branch2 y1 ≤ mips_branch2 y2) ∧
     (∀ y1 y2 : ℝ, y1 ≤ y2 → mips_branch3 y1 ≤ mips_branch3 y2) ∧
     (∀ y1 y2 : ℝ, y1 ≤ y2 → mips_branch4 y1 ≤ mips_branch4 y2)) ∧
    (mips_branch2 0.4344 ≤ mips_branch3 0.4344 ∧
     mips_branch3 0.9041 ≤ mips_branch4 0.9041 ∧
     mips_branch2 0.3394 ≤ mips_branch1 0.3394) ∧
    (∀ theta : ℝ, 0 < costheta_clamped theta ∧ costheta_clamped theta ≤ 1) ∧
    (∀ y1 y2 theta : ℝ, mipsNum y1 ≤ mipsNum y2 →
      mipsOne y1 theta ≤ mipsOne y2 theta) := by
  have s3394_lb : (0.58258 : ℝ) ≤ Real.sqrt 0.3394 :=
    le_sqrt_of_sq _ _ (by norm_num) (by norm_num)
  have s3394_ub : Real.sqrt (0.3394 : ℝ) ≤ 0.58259 :=
    sqrt_le_of_sq _ _ (by norm_num) (by norm_num)
  have s4923_lb : (0.70164 : ℝ) ≤ Real.sqrt 0.4923 :=
    le_sqrt_of_sq _ _ (by norm_num) (by norm_num)
  have s4923_ub : Real.sqrt (0.4923 : ℝ) ≤ 0.701645 :=
    sqrt_le_of_sq _ _ (by norm_num) (by norm_num)
  have s0226_lb : (0.150332 : ℝ) ≤ Real.sqrt 0.0226 :=
    le_sqrt_of_sq _ _ (by norm_num) (by norm_num)
  have s0226_ub : Real.sqrt (0.0226 : ℝ) ≤ 0.150334 :=
    sqrt_le_of_sq _ _ (by norm_num) (by norm_num)
  have s0959_lb : (0.309677 : ℝ) ≤ Real.sqrt 0.0959 :=
    le_sqrt_of_sq _ _ (by norm_num) (by norm_num)
  have s0959_ub : Real.sqrt (0.0959 : ℝ) ≤ 0.30968 :=
    sqrt_le_of_sq _ _ (by norm_num) (by norm_num)
  have hb1 : mips_branch1 (0.3394 : ℝ) = 0.48 + 0.8583 * Real.sqrt 0.3394 := rfl
  have hb2a : mips_branch2 (0.3394 : ℝ) = 0.73 + 0.7366 * 0.3394 := rfl
  have hb2b : mips_branch2 (0.4344 : ℝ) = 0.73 + 0.7366 * 0.4344 := rfl
  have hb3a : mips_branch3 (0.4344 : ℝ) = 1.7752 - 1.0336 * Real.sqrt (0.9267 - 0.4344) := rfl
  have hb3b : mips_branch3 (0.9041 : ℝ) = 1.7752 - 1.0336 * Real.sqrt (0.9267 - 0.9041) := rfl
  have hb4 : mips_branch4 (0.9041 : ℝ) = 2.28 - 2.1316 * Real.sqrt (1 - 0.9041) := rfl
  have e1 : ((0.9267 : ℝ) - 0.4344) = 0.4923 := by norm_num
  have e2 : ((0.9267 : ℝ) - 0.9041) = 0.0226 := by norm_num
  have e3 : ((1 : ℝ) - 0.9041) = 0.0959 := by norm_num
  rw [e1] at hb3a
  rw [e2] at hb3b
  rw [e3] at hb4
  refine ⟨?_, ?_, ?_, ?_, ⟨?_, ?_, ?_⟩, ⟨?_, ?_, ?_, ?_⟩, ⟨?_, ?_, ?_⟩, ?_, ?_⟩
  · intro y h
    unfold mipsNum
    rw [if_pos h]
  · intro y h1 h2
    unfold mipsNum
    rw [if_neg (by linarith), if_pos h2]
  · intro y h1 h2
    unfold mipsNum
    rw [if_neg (by linarith), if_neg (by linarith), if_pos h2]
  · intro y h1
    unfold mipsNum
    rw [if_neg (by linarith), if_neg (by linarith), if_neg (by linarith)]
  · rw [hb1, hb2a, abs_le]
    constructor <;> linarith
  · rw [hb2b, hb3a, abs_le]
    constructor <;> linarith
  · rw [hb3b, hb4, abs_le]
    constructor <;> linarith
  · intro y1 y2 h
    unfold mips_branch1
    have := Real.sqrt_le_sqrt h
    linarith
  · intro y1 y2 h
    unfold mips_branch2
    linarith
  · intro y1 y2 h
    unfold mips_branch3
    have : Real.sqrt (0.9267 - y2) ≤ Real.sqrt (0.9267 - y1) :=
      Real.sqrt_le_sqrt (by linarith)
    linarith
  · intro y1 y2 h
    unfold mips_branch4
    have : Real.sqrt (1 - y2) ≤ Real.sqrt (1 - y1) :=
      Real.sqrt_le_sqrt (by linarith)
    linarith
  · rw [hb2b, hb3a]
    linarith
  · rw [hb3b, hb4]
    linarith
  · rw [hb1, hb2a]
    linarith
  · intro theta
    constructor
    · unfold costheta_clamped min_costheta
      have : (2 / 112 : ℝ) ≤ max (Real.cos theta) (2 / 112) := le_max_right _ _
      linarith
    · unfold costheta_clamped min_costheta
      exact max_le (Real.cos_le_one theta) (by norm_num)
  · intro y1 y2 theta h
    unfold mipsOne
    have hpos : 0 < costheta_clamped theta := by
      unfold costheta_clamped min_costheta
      have : (2 / 112 : ℝ) ≤ max (Real.cos theta) (2 / 112) := le_max_right _ _
      linarith
    exact (div_le_div_iff_of_pos_right hpos).mpr h
    
/-- Instantiation of the amended C3: the second piece applies at
`y = 0.4`, and the ordering transfer applies at equal numerators. -/
theorem mips_piecewise_spec_witness :
    mipsNum 0.4 = mips_branch2 0.4 ∧ mipsOne 0.5 0 ≤ mipsOne 0.5 0 :=
  ⟨mips_piecewise_spec.2.1 0.4 (by norm_num) (by norm_num),
   mips_piecewise_spec.2.2.2.2.2.2.2.2 0.5 0.5 0 (le_refl _)⟩


theorem ceil_in_base_ne_sentinel (x : ℝ) : ceil_in_base x 2.5 ≠ -999 := by
  unfold ceil_in_base
  intro h
  have h3 : ((5 * ⌈x / 2.5⌉ : ℤ) : ℝ) = ((-1998 : ℤ) : ℝ) := by
    push_cast
    linarith
  have h4 : (5 * ⌈x / 2.5⌉ : ℤ) = -1998 := by exact_mod_cast h3
  omega

theorem mipsNum_ge (y : ℝ) : (0.48 : ℝ) ≤ mipsNum y := by
  unfold mipsNum
  rcases lt_or_le y 0.3394 with h1 | h1
  · rw [if_pos h1]
    unfold mips_branch1
    have := Real.sqrt_nonneg y
    linarith
  · rw [if_neg (not_lt.mpr h1)]
    rcases lt_or_le y 0.4344 with h2 | h2
    · rw [if_pos h2]
      unfold mips_branch2
      linarith
    · rw [if_neg (not_lt.mpr h2)]
      rcases lt_or_le y 0.9041 with h3 | h3
      · rw [if_pos h3]
        unfold mips_branch3
        have hs : Real.sqrt (0.9267 - y) ≤ Real.sqrt 0.4923 :=
          Real.sqrt_le_sqrt (by linarith)
        have hb : Real.sqrt (0.4923 : ℝ) ≤ 0.701645 :=
          sqrt_le_of_sq _ _ (by norm_num) (by norm_num)
        linarith
      · rw [if_neg (not_lt.mpr h3)]
        unfold mips_branch4
        have hs : Real.sqrt (1 - y) ≤ Real.sqrt 0.0959 :=
          Real.sqrt_le_sqrt (by linarith)
        have hb : Real.sqrt (0.0959 : ℝ) ≤ 0.30968 :=
          sqrt_le_of_sq _ _ (by norm_num) (by norm_num)
        linarith

theorem costheta_clamped_pos (theta : ℝ) : 0 < costheta_clamped theta := by
  unfold costheta_clamped min_costheta
  have := le_max_right (Real.cos theta) (2 / 112 : ℝ)
  linarith

theorem costheta_clamped_le_one (theta : ℝ) : costheta_clamped theta ≤ 1 := by
  unfold costheta_clamped min_costheta
  exact max_le (Real.cos_le_one theta) (by norm_num)

theorem mipsOne_ge (y theta : ℝ) : (0.48 : ℝ) ≤ mipsOne y theta := by
  unfold mipsOne
  have h1 := mipsNum_ge y
  have hpos := costheta_clamped_pos theta
  have hle1 := costheta_clamped_le_one theta
  have h2 : mipsNum y / 1 ≤ mipsNum y / costheta_clamped theta :=
    div_le_div_of_nonneg_left (by linarith) hpos hle1
  rw [div_one] at h2
  linarith

theorem sum_ge_of_forall (l : List ℝ) (hne : l ≠ [])
    (h : ∀ x ∈ l, (0.48 : ℝ) ≤ x) : (0.48 : ℝ) ≤ l.sum := by
  match l, hne with
  | x :: xs, _ =>
    have hx := h x (by simp)
    have hxs : 0 ≤ xs.sum :=
      List.sum_nonneg (fun b hb => le_trans (by norm_num) (h b (by simp [hb])))
    rw [List.sum_cons]
    linarith

theorem roundTo3_ge (x : ℝ) (h : (0.48 : ℝ) ≤ x) : (0.48 : ℝ) ≤ roundTo3 x := by
  unfold roundTo3
  have h1 : (480 : ℤ) ≤ round (1000 * x) := by
    rw [round_eq]
    exact Int.le_floor.mpr (by push_cast; linarith)
  have h2 : (480 : ℝ) ≤ (round (1000 * x) : ℤ) := by exact_mod_cast h1
  have h3 : (480 : ℝ) / 1000 ≤ ((round (1000 * x) : ℤ) : ℝ) / 1000 :=
    (div_le_div_iff_of_pos_right (by norm_num)).mpr h2
  linarith

/-- C10: `simulate_detector_response` returns the sentinel `t = -999`
exactly when `n = 0`: with no particles selected it returns
`{n: 0, t: -999}`, and with at least one particle every per-particle
mips contribution is at least `0.48` (the clamped cosine lies in
`(0, 1]`), so `n` rounds to a strictly positive value while `t`, a
multiple of the 2.5 ns ADC bin, can never equal `-999`. -/
theorem detector_response_sentinel :
    (∀ y theta : ℝ, (0.48 : ℝ) ≤ mipsOne y theta) ∧
    (∀ (particles : List Particle) (ys us : ℕ → ℝ) (offset zenith z_det c_light : ℝ),
      particles = [] →
        simulate_detector_response particles ys us offset zenith z_det c_light =
          ⟨0, -999⟩) ∧
    (∀ (particles : List Particle) (ys us : ℕ → ℝ) (offset zenith z_det c_light : ℝ),
      particles ≠ [] →
        (0.48 : ℝ) ≤
          (simulate_detector_response particles ys us offset zenith z_det c_light).n ∧
        (simulate_detector_response particles ys us offset zenith z_det c_light).t ≠
          -999) ∧
    (∀ (particles : List Particle) (ys us : ℕ → ℝ) (offset zenith z_det c_light : ℝ),
      (simulate_detector_response particles ys us offset zenith z_det c_light).t = -999 ↔
      (simulate_detector_response particles ys us offset zenith z_det c_light).n = 0) := by
  have hEmpty : ∀ (particles : List Particle) (ys us : ℕ → ℝ)
      (offset zenith z_det c_light : ℝ), particles = [] →
      simulate_detector_response particles ys us offset zenith z_det c_light =
        ⟨0, -999⟩ := by
    intro particles ys us offset zenith z_det c_light h
    subst h
    unfold simulate_detector_response
    rw [if_neg (by simp)]
  have hNonempty : ∀ (particles : List Particle) (ys us : ℕ → ℝ)
      (offset zenith z_det c_light : ℝ), particles ≠ [] →
      (0.48 : ℝ) ≤
        (simulate_detector_response particles ys us offset zenith z_det c_light).n ∧
      (simulate_detector_response particles ys us offset zenith z_det c_light).t ≠
        -999 := by
    intro particles ys us offset zenith z_det c_light h
    have hlen : particles.length ≠ 0 := by
      simpa [List.length_eq_zero] using h
    unfold simulate_detector_response
    rw [if_pos hlen]
    dsimp only
    constructor
    · refine roundTo3_ge _ ?_
      unfold simulate_detector_mips_for_particles
      refine sum_ge_of_forall _ ?_ ?_
      · simp [List.length_eq_zero, h]
      · intro x hx
        obtain ⟨ip, -, rfl⟩ := List.mem_map.mp hx
        exact mipsOne_ge _ _
    · exact ceil_in_base_ne_sentinel _
  refine ⟨fun y theta => mipsOne_ge y theta, hEmpty, hNonempty, ?_⟩
  intro particles ys us offset zenith z_det c_light
  by_cases h : particles = []
  · rw [hEmpty particles ys us offset zenith z_det c_light h]
    norm_num
  · obtain ⟨hn, ht⟩ := hNonempty particles ys us offset zenith z_det c_light h
    constructor
    · intro habs
      exact absurd habs ht
    · intro habs
      rw [habs] at hn
      norm_num at hn

/-- Instantiation of C10 at a one-particle detector hit. -/
theorem detector_response_sentinel_witness :
    (0.48 : ℝ) ≤ (simulate_detector_response [⟨2, 0, 0, 0, 0, 0, 1⟩]
      (fun _ => 1/2) (fun _ => 1/2) 0 0 0 1).n ∧
    (simulate_detector_response [⟨2, 0, 0, 0, 0, 0, 1⟩]
      (fun _ => 1/2) (fun _ => 1/2) 0 0 0 1).t ≠ -999 :=
  detector_response_sentinel.2.2.1 [⟨2, 0, 0, 0, 0, 0, 1⟩]
    (fun _ => 1/2) (fun _ => 1/2) 0 0 0 1 (List.cons_ne_nil _ _)

end Sapphire
